import Mathlib

/-!
Verification of the RADIUS CHAP transaction in `src/radius.cc`
(repository missing233/sofutobanku).

The development shallowly embeds `radius_transact` (src/radius.cc, lines
43-192).  Pure computations (the CHAP response, the MD5 hash it uses, the
attribute list that is built) are Lean functions over byte lists
(`List Nat`, each entry a byte value).  The calls into the radcli / OpenSSL
libraries are modelled by an environment `Env` recording the outcome of
every fallible library call, and the observable behaviour of one
transaction is the pair of the returned result code and a trace of events
(configuration calls, the network send, attribute reports, resource
acquisition and release).
-/

set_option maxRecDepth 8192

namespace SbRadius

/-! ## Bytes and 32-bit words

Machine words are `Nat` with explicit reduction `% 4294967296` (2^32)
wherever C arithmetic would overflow. -/

/-- The four bytes of a 32-bit word, least significant first. -/
def toLE4 (x : Nat) : List Nat :=
  [x % 256, x / 256 % 256, x / 65536 % 256, x / 16777216 % 256]

/-- The eight bytes of a 64-bit word, least significant first. -/
def toLE8 (x : Nat) : List Nat :=
  toLE4 (x % 4294967296) ++ toLE4 (x / 4294967296 % 4294967296)

/-- Read a little-endian word from a byte list. -/
def fromLE : List Nat → Nat
  | [] => 0
  | b :: rest => b % 256 + 256 * fromLE rest

/-- Rotate a 32-bit word left by `s` places (`0 ≤ s < 32`). -/
def rotl32 (x s : Nat) : Nat :=
  ((x <<< s) % 4294967296) ||| (x >>> (32 - s))

/-! ## MD5 (RFC 1321)

`radius.cc` calls OpenSSL's `MD5` on the CHAP input and uses
`MD5_DIGEST_LENGTH` (16) both as the challenge size and as the digest
size.  The hash is embedded here in full so that the byte-exact claims
about the CHAP response are claims about the actual function computed.
The RFC 1321 test vectors are proved below (`md5_vector_empty`,
`md5_vector_abc`). -/

/-- The 64 sine-derived round constants of MD5 (RFC 1321, `T[i+1]`). -/
def md5K : List Nat :=
  [0xd76aa478, 0xe8c7b756, 0x242070db, 0xc1bdceee,
   0xf57c0faf, 0x4787c62a, 0xa8304613, 0xfd469501,
   0x698098d8, 0x8b44f7af, 0xffff5bb1, 0x895cd7be,
   0x6b901122, 0xfd987193, 0xa679438e, 0x49b40821,
   0xf61e2562, 0xc040b340, 0x265e5a51, 0xe9b6c7aa,
   0xd62f105d, 0x02441453, 0xd8a1e681, 0xe7d3fbc8,
   0x21e1cde6, 0xc33707d6, 0xf4d50d87, 0x455a14ed,
   0xa9e3e905, 0xfcefa3f8, 0x676f02d9, 0x8d2a4c8a,
   0xfffa3942, 0x8771f681, 0x6d9d6122, 0xfde5380c,
   0xa4beea44, 0x4bdecfa9, 0xf6bb4b60, 0xbebfbc70,
   0x289b7ec6, 0xeaa127fa, 0xd4ef3085, 0x04881d05,
   0xd9d4d039, 0xe6db99e5, 0x1fa27cf8, 0xc4ac5665,
   0xf4292244, 0x432aff97, 0xab9423a7, 0xfc93a039,
   0x655b59c3, 0x8f0ccc92, 0xffeff47d, 0x85845dd1,
   0x6fa87e4f, 0xfe2ce6e0, 0xa3014314, 0x4e0811a1,
   0xf7537e82, 0xbd3af235, 0x2ad7d2bb, 0xeb86d391]

/-- The per-round left-rotation amounts of MD5. -/
def md5S : List Nat :=
  [7, 12, 17, 22, 7, 12, 17, 22, 7, 12, 17, 22, 7, 12, 17, 22,
   5, 9, 14, 20, 5, 9, 14, 20, 5, 9, 14, 20, 5, 9, 14, 20,
   4, 11, 16, 23, 4, 11, 16, 23, 4, 11, 16, 23, 4, 11, 16, 23,
   6, 10, 15, 21, 6, 10, 15, 21, 6, 10, 15, 21, 6, 10, 15, 21]

/-- The four 32-bit words of the MD5 internal state. -/
structure MD5State where
  a : Nat
  b : Nat
  c : Nat
  d : Nat

/-- The MD5 initial state. -/
def md5Init : MD5State :=
  { a := 0x67452301, b := 0xefcdab89, c := 0x98badcfe, d := 0x10325476 }

/-- The `j`-th little-endian message word of one 64-byte chunk. -/
def chunkWords (chunk : List Nat) (j : Nat) : Nat :=
  fromLE ((chunk.drop (4 * j)).take 4)

/-- One of the 64 MD5 rounds, acting on the state. -/
def md5Round (m : Nat → Nat) (st : MD5State) (i : Nat) : MD5State :=
  let fg : Nat × Nat :=
    if i < 16 then ((st.b &&& st.c) ||| ((st.b ^^^ 0xffffffff) &&& st.d), i)
    else if i < 32 then
      ((st.d &&& st.b) ||| ((st.d ^^^ 0xffffffff) &&& st.c), (5 * i + 1) % 16)
    else if i < 48 then (st.b ^^^ st.c ^^^ st.d, (3 * i + 5) % 16)
    else (st.c ^^^ (st.b ||| (st.d ^^^ 0xffffffff)), (7 * i) % 16)
  let f2 := (fg.1 + st.a + md5K.getD i 0 + m fg.2) % 4294967296
  { a := st.d, d := st.c, c := st.b,
    b := (st.b + rotl32 f2 (md5S.getD i 0)) % 4294967296 }

/-- Process one 64-byte chunk: run the 64 rounds and add the result into
the incoming state, modulo 2^32. -/
def md5Chunk (st0 : MD5State) (chunk : List Nat) : MD5State :=
  let m := chunkWords chunk
  let st := (List.range 64).foldl (md5Round m) st0
  { a := (st0.a + st.a) % 4294967296,
    b := (st0.b + st.b) % 4294967296,
    c := (st0.c + st.c) % 4294967296,
    d := (st0.d + st.d) % 4294967296 }

/-- MD5 padding: append `0x80`, zero bytes up to 56 mod 64, then the
original length in bits as a little-endian 64-bit word. -/
def md5Pad (msg : List Nat) : List Nat :=
  msg ++ 0x80 :: List.replicate ((119 - msg.length % 64) % 64) 0 ++
    toLE8 ((8 * msg.length) % 18446744073709551616)

/-- The MD5 digest of a byte string: 16 bytes. -/
def md5 (msg : List Nat) : List Nat :=
  let padded := md5Pad msg
  let final := (List.range (padded.length / 64)).foldl
    (fun st i => md5Chunk st ((padded.drop (64 * i)).take 64))
    md5Init
  toLE4 final.a ++ toLE4 final.b ++ toLE4 final.c ++ toLE4 final.d

/-- The byte values of an ASCII string. -/
def strBytes (s : String) : List Nat :=
  s.toList.map Char.toNat

theorem md5_digest_length (msg : List Nat) : (md5 msg).length = 16 := by
  simp [md5, toLE4]

/-- RFC 1321 test vector: MD5 of the empty string. -/
theorem md5_vector_empty :
    md5 [] = [0xd4, 0x1d, 0x8c, 0xd9, 0x8f, 0x00, 0xb2, 0x04,
              0xe9, 0x80, 0x09, 0x98, 0xec, 0xf8, 0x42, 0x7e] := by
  decide

/-- RFC 1321 test vector: MD5 of `abc`. -/
theorem md5_vector_abc :
    md5 (strBytes "abc") = [0x90, 0x01, 0x50, 0x98, 0x3c, 0xd2, 0x4f, 0xb0,
                            0xd6, 0x96, 0x3f, 0x7d, 0x28, 0xe1, 0x7f, 0x72] := by
  decide

/-! ## Constants of `src/radius.cc`

The device-identity strings and vendor numbering, lines 32-41 of the
source, and the dictionary path of line 57. -/

def kManufacturer : String := "foxconn"

def kModel : String := "e-wmta2.3,V5.0.0.1.rc35"

def kHwRev : String := "hw_rev_2.00"

def kVendorSoftbank : Nat := 22197

def kSbBBMac : Nat := 1

def kSbBBManufacturer : Nat := 2

def kSbBBModel : Nat := 3

def kSbBBHWRev : Nat := 4

/-- The dictionary path configured at line 57. -/
def RADIUS_DICTIONARY : String := "/etc/radcli/dictionary"

/-! Attribute and result-code constants from the radcli header (standard
RADIUS numbering; the header is outside the repository). -/

def PW_USER_NAME : Nat := 1

def PW_CHAP_PASSWORD : Nat := 3

def PW_CHAP_CHALLENGE : Nat := 60

def PW_ACCESS_REQUEST : Nat := 1

def OK_RC : Int := 0

def ERROR_RC : Int := -1

def TIMEOUT_RC : Int := 1

def REJECT_RC : Int := 2

/-! ## The CHAP response (lines 122-134)

`chap_password` is the string hashed at line 128: the byte `0x01`, the
password bytes, the 16 challenge bytes.  `response` is the CHAP-Password
attribute value built at lines 131-134: the identifier byte `0x01`
followed by the 16 digest bytes. -/

/-- The MD5 input of lines 122-125: `0x01 ∥ password ∥ challenge`. -/
def chap_password (password challenge : List Nat) : List Nat :=
  0x01 :: (password ++ challenge)

/-- The CHAP-Password attribute value of lines 131-134:
`0x01 ∥ MD5(chap_password)`. -/
def response (password challenge : List Nat) : List Nat :=
  0x01 :: md5 (chap_password password challenge)

/-! ## The transaction model -/

/-- Modelled from the spec: the `IpAddress` class of `radius.h` (not under
`src/`) renders an address in a bracketed textual form (used when composing
the server string) and an expanded textual form (used as the User-Name
value). -/
structure IpAddress where
  bracketed : String
  expanded : String

/-- One attribute-value pair of the outgoing request: attribute number,
optional vendor id (`none` models radcli's `VENDOR_NONE`), raw value
bytes. -/
structure Avp where
  attr : Nat
  vendor : Option Nat
  value : List Nat
deriving DecidableEq

/-- The resources `radius_transact` holds: the radcli session handle
(`rh`), the outgoing AVP list (`send`), the received-attribute list
(`received`). -/
inductive Res where
  | session
  | sendList
  | recvList
deriving DecidableEq

/-- Observable events of one transaction, in program order. -/
inductive Event where
  | acquire (r : Res)
  | release (r : Res)
  | configInit
  | addConfig (key value : String)
  | testConfig
  | readDict (path : String)
  | send (code : Nat) (avps : List Avp)
  | report (name value : List Char)
deriving DecidableEq

/-- Whether an event is the network send (the `rc_aaa` call). -/
def Event.isSend : Event → Bool
  | .send _ _ => true
  | _ => false

/-- Outcomes of the external library calls made by `radius_transact`: one
`Bool` per fallible radcli call (in source order), the OpenSSL `RAND_bytes`
outcome and buffer contents, the `rc_aaa` result code, the reply attribute
list and the dictionary's text rendering of reply attributes. -/
structure Env where
  rc_new_ok : Bool
  config_init_ok : Bool
  dict_cfg_ok : Bool
  retries_cfg_ok : Bool
  timeout_cfg_ok : Bool
  test_config_ok : Bool
  read_dict_ok : Bool
  read_sb_dict_ok : Bool
  avpair_new_ok : Bool
  add_challenge_ok : Bool
  add_password_ok : Bool
  add_mac_ok : Bool
  add_manufacturer_ok : Bool
  add_model_ok : Bool
  add_hwrev_ok : Bool
  /-- The return value of `RAND_bytes` (line 111); the source never
  reads it. -/
  rand_ok : Bool
  /-- The 16 bytes of the challenge buffer after the `RAND_bytes` call
  (arbitrary when `rand_ok` is false: the call left the buffer in an
  unspecified state). -/
  rand_bytes : Fin 16 → Nat
  /-- The result code of `rc_aaa` (line 171). -/
  aaa_result : Int
  /-- The reply attributes `rc_aaa` hands back on success, as opaque
  attribute identifiers. -/
  reply : List Nat
  /-- The dictionary's full decoded (name, value) text of a reply
  attribute, or `none` when the attribute cannot be decoded. -/
  decode : Nat → Option (List Char × List Char)

/-- Modelled from the spec: radcli's parsing of the `authserver`
configuration value (library code outside the repository).  The value is
`bracketed-address ∥ "::" ∥ secret`; per the spec `server_address` and
`shared_secret` must be non-empty, so the step fails when the address part
is malformed (empty) or the secret part is empty. -/
def authserverOk (ip : IpAddress) (secret : String) : Bool :=
  decide (ip.bracketed ≠ "") && decide (secret ≠ "")

/-- Modelled from the spec: `rc_avpair_tostr` (library code outside the
repository) renders an attribute's dictionary name and value into two
caller-supplied character buffers of the given sizes; a rendered C string
in a buffer of size `n` holds at most `n - 1` characters, so each
component is truncated to fit; rendering fails when the dictionary cannot
decode the attribute. -/
def avpairTostr (decode : Nat → Option (List Char × List Char))
    (nameLen valueLen : Nat) (a : Nat) : Option (List Char × List Char) :=
  (decode a).map fun p => (p.1.take (nameLen - 1), p.2.take (valueLen - 1))

/-- The configuration phase, lines 52-96: `rc_config_init`, the four
`rc_add_config` calls, `rc_test_config`, the two `rc_read_dictionary`
calls, in source order.  Returns whether every step succeeded together
with the events performed (a failing step's call still appears: the call
is made, then its result is checked). -/
def configPhase (env : Env) (ip : IpAddress) (secret : String) :
    Bool × List Event :=
  let e1 := [Event.configInit]
  if env.config_init_ok then
    let e2 := e1 ++ [Event.addConfig "dictionary" RADIUS_DICTIONARY]
    if env.dict_cfg_ok then
      let e3 := e2 ++
        [Event.addConfig "authserver" (ip.bracketed ++ "::" ++ secret)]
      if authserverOk ip secret then
        let e4 := e3 ++ [Event.addConfig "radius_retries" "3"]
        if env.retries_cfg_ok then
          let e5 := e4 ++ [Event.addConfig "radius_timeout" "5"]
          if env.timeout_cfg_ok then
            let e6 := e5 ++ [Event.testConfig]
            if env.test_config_ok then
              let e7 := e6 ++ [Event.readDict RADIUS_DICTIONARY]
              if env.read_dict_ok then
                let e8 := e7 ++ [Event.readDict "dictionary.softbank"]
                if env.read_sb_dict_ok then (true, e8)
                else (false, e8)
              else (false, e7)
            else (false, e6)
          else (false, e5)
        else (false, e4)
      else (false, e3)
    else (false, e2)
  else (false, e1)

/-- The attribute list built at lines 98-168.  `rc_avpair_new` starts the
list with User-Name; each `rc_avpair_add` appends one pair at the end
(radcli list semantics); the first failing call aborts the build.
`challenge` is the 16-byte challenge and `resp` the CHAP-Password value. -/
def buildAvps (env : Env) (ip : IpAddress) (challenge resp : List Nat)
    (mac : String) : Option (List Avp) :=
  let l1 := [Avp.mk PW_USER_NAME none (strBytes ip.expanded)]
  if env.add_challenge_ok then
    let l2 := l1 ++ [Avp.mk PW_CHAP_CHALLENGE none challenge]
    if env.add_password_ok then
      let l3 := l2 ++ [Avp.mk PW_CHAP_PASSWORD none resp]
      if env.add_mac_ok then
        let l4 := l3 ++ [Avp.mk kSbBBMac (some kVendorSoftbank) (strBytes mac)]
        if env.add_manufacturer_ok then
          let l5 := l4 ++
            [Avp.mk kSbBBManufacturer (some kVendorSoftbank)
              (strBytes kManufacturer)]
          if env.add_model_ok then
            let l6 := l5 ++
              [Avp.mk kSbBBModel (some kVendorSoftbank) (strBytes kModel)]
            if env.add_hwrev_ok then
              some (l6 ++
                [Avp.mk kSbBBHWRev (some kVendorSoftbank) (strBytes kHwRev)])
            else none
          else none
        else none
      else none
    else none
  else none

/-- The report events of the success branch (lines 179-185): each reply
attribute is rendered through `rc_avpair_tostr` with two 128-byte buffers
and every attribute that renders is reported; the loop then moves to the
next attribute in every case.  Modelled from the spec: `rc_aaa` populates
the received list only on success. -/
def reportEvents (env : Env) : List Event :=
  (env.reply.filterMap (avpairTostr env.decode 128 128)).map
    fun p => Event.report p.1 p.2

/-- The transaction body after the CHAP response value `resp` has been
computed from the password: everything else in `radius_transact`
(lines 46-191) never touches the password.  Scoped handles
(`unique_rc_handle rh`, `unique_VALUE_PAIR send`, `unique_VALUE_PAIR vp`;
the handle types live in `radius.h`, modelled from the spec as
guaranteed-release-on-scope-exit owners) emit `release` events on every
exit path, in reverse acquisition order. -/
def transactCore (env : Env) (ip : IpAddress) (secret mac : String)
    (resp : List Nat) : Int × List Event :=
  if env.rc_new_ok then
    match configPhase env ip secret with
    | (false, tr) =>
      (ERROR_RC, Event.acquire Res.session :: tr ++ [Event.release Res.session])
    | (true, tr) =>
      if env.avpair_new_ok then
        let challenge := List.ofFn env.rand_bytes
        match buildAvps env ip challenge resp mac with
        | none =>
          (ERROR_RC, Event.acquire Res.session :: tr ++
            [Event.acquire Res.sendList, Event.release Res.sendList,
             Event.release Res.session])
        | some avps =>
          (env.aaa_result, Event.acquire Res.session :: tr ++
            [Event.acquire Res.sendList,
             Event.send PW_ACCESS_REQUEST avps] ++
            (if env.aaa_result = OK_RC then
              Event.acquire Res.recvList :: reportEvents env ++
                [Event.release Res.recvList]
            else []) ++
            [Event.release Res.sendList, Event.release Res.session])
      else
        (ERROR_RC, Event.acquire Res.session :: tr ++
          [Event.release Res.session])
  else (ERROR_RC, [])

/-- One RADIUS transaction, `radius_transact` of `src/radius.cc`: the
password enters the computation only as input of the CHAP response value
(lines 122-134); the rest of the body is `transactCore`. -/
def radius_transact (env : Env) (ip : IpAddress)
    (secret password mac : String) : Int × List Event :=
  transactCore env ip secret mac
    (response (strBytes password) (List.ofFn env.rand_bytes))

/-! ## Derived descriptions used in the statements -/

/-- The seven attribute-value pairs of a fully built request, in build
order. -/
def sentAvps (env : Env) (ip : IpAddress) (password mac : String) :
    List Avp :=
  [Avp.mk PW_USER_NAME none (strBytes ip.expanded),
   Avp.mk PW_CHAP_CHALLENGE none (List.ofFn env.rand_bytes),
   Avp.mk PW_CHAP_PASSWORD none
     (response (strBytes password) (List.ofFn env.rand_bytes)),
   Avp.mk kSbBBMac (some kVendorSoftbank) (strBytes mac),
   Avp.mk kSbBBManufacturer (some kVendorSoftbank) (strBytes kManufacturer),
   Avp.mk kSbBBModel (some kVendorSoftbank) (strBytes kModel),
   Avp.mk kSbBBHWRev (some kVendorSoftbank) (strBytes kHwRev)]

/-- The configuration events of a successful configuration phase, in
source order. -/
def configEvents (ip : IpAddress) (secret : String) : List Event :=
  [Event.configInit,
   Event.addConfig "dictionary" RADIUS_DICTIONARY,
   Event.addConfig "authserver" (ip.bracketed ++ "::" ++ secret),
   Event.addConfig "radius_retries" "3",
   Event.addConfig "radius_timeout" "5",
   Event.testConfig,
   Event.readDict RADIUS_DICTIONARY,
   Event.readDict "dictionary.softbank"]

/-- The whole event trace of a transaction in which every setup and build
step succeeded. -/
def happyTrace (env : Env) (ip : IpAddress) (secret password mac : String) :
    List Event :=
  Event.acquire Res.session :: configEvents ip secret ++
    [Event.acquire Res.sendList,
     Event.send PW_ACCESS_REQUEST (sentAvps env ip password mac)] ++
    (if env.aaa_result = OK_RC then
      Event.acquire Res.recvList :: reportEvents env ++
        [Event.release Res.recvList]
    else []) ++
    [Event.release Res.sendList, Event.release Res.session]

/-- All configuration steps (session creation, dictionary configuration
and loading, authserver, retries, timeout, validation) succeeded. -/
def setupOk (env : Env) (ip : IpAddress) (secret : String) : Bool :=
  env.rc_new_ok && (env.config_init_ok && (env.dict_cfg_ok &&
    (authserverOk ip secret && (env.retries_cfg_ok && (env.timeout_cfg_ok &&
    (env.test_config_ok && (env.read_dict_ok && env.read_sb_dict_ok)))))))

/-- All attribute-construction steps succeeded. -/
def buildOk (env : Env) : Bool :=
  env.avpair_new_ok && (env.add_challenge_ok && (env.add_password_ok &&
    (env.add_mac_ok && (env.add_manufacturer_ok && (env.add_model_ok &&
    env.add_hwrev_ok)))))

/-- No event of the trace is the network send. -/
def noSendL (tr : List Event) : Bool :=
  tr.all fun e => !e.isSend

/-- The (name, value) pairs reported in a trace, in order. -/
def reportsOf : List Event → List (List Char × List Char)
  | [] => []
  | Event.report n v :: rest => (n, v) :: reportsOf rest
  | _ :: rest => reportsOf rest

/-- How many times an event occurs in a trace. -/
def countEv : List Event → Event → Nat
  | [], _ => 0
  | x :: rest, e => (if x = e then 1 else 0) + countEv rest e

/-- Every resource acquired in the trace is released as often as it is
acquired. -/
def balancedB (tr : List Event) : Bool :=
  (countEv tr (Event.acquire Res.session) ==
    countEv tr (Event.release Res.session)) &&
  (countEv tr (Event.acquire Res.sendList) ==
    countEv tr (Event.release Res.sendList)) &&
  (countEv tr (Event.acquire Res.recvList) ==
    countEv tr (Event.release Res.recvList))

/-! ## Trace bookkeeping lemmas -/

theorem noSendL_append (l1 l2 : List Event) :
    noSendL (l1 ++ l2) = (noSendL l1 && noSendL l2) := by
  simp [noSendL, List.all_append]

theorem reportsOf_append (l1 l2 : List Event) :
    reportsOf (l1 ++ l2) = reportsOf l1 ++ reportsOf l2 := by
  induction l1 with
  | nil => rfl
  | cons h t ih => cases h <;> simp [reportsOf, ih]

theorem countEv_append (l1 l2 : List Event) (e : Event) :
    countEv (l1 ++ l2) e = countEv l1 e + countEv l2 e := by
  induction l1 with
  | nil => simp [countEv]
  | cons h t ih => simp [countEv, ih]; omega

theorem reportsOf_map_report (l : List (List Char × List Char)) :
    reportsOf (l.map fun p => Event.report p.1 p.2) = l := by
  induction l with
  | nil => rfl
  | cons h t ih => simp [reportsOf, ih]

theorem noSendL_map_report (l : List (List Char × List Char)) :
    noSendL (l.map fun p => Event.report p.1 p.2) = true := by
  induction l with
  | nil => rfl
  | cons h t ih => simpa [noSendL, Event.isSend] using ih

theorem countEv_map_report_acquire (l : List (List Char × List Char))
    (r : Res) :
    countEv (l.map fun p => Event.report p.1 p.2) (Event.acquire r) = 0 := by
  induction l with
  | nil => rfl
  | cons h t ih => simpa [countEv] using ih

theorem countEv_map_report_release (l : List (List Char × List Char))
    (r : Res) :
    countEv (l.map fun p => Event.report p.1 p.2) (Event.release r) = 0 := by
  induction l with
  | nil => rfl
  | cons h t ih => simpa [countEv] using ih

theorem noSendL_not_mem (tr : List Event) (h : noSendL tr = true)
    (code : Nat) (avps : List Avp) : Event.send code avps ∉ tr := by
  intro hmem
  have := List.all_eq_true.mp h _ hmem
  simp [Event.isSend] at this

theorem mem_reportsOf (tr : List Event) (n v : List Char)
    (h : Event.report n v ∈ tr) : (n, v) ∈ reportsOf tr := by
  induction tr with
  | nil => simp at h
  | cons e rest ih =>
    rcases List.mem_cons.mp h with he | he
    · subst he; simp [reportsOf]
    · cases e <;> simp [reportsOf, ih he]

/-! ## Characterizing the configuration phase -/

/-- Every event is a pure configuration call: no send, no report, no
resource acquisition or release. -/
def configOnly (tr : List Event) : Bool :=
  tr.all fun e =>
    match e with
    | Event.configInit => true
    | Event.addConfig _ _ => true
    | Event.testConfig => true
    | Event.readDict _ => true
    | _ => false

theorem configOnly_noSend (tr : List Event) (h : configOnly tr = true) :
    noSendL tr = true := by
  induction tr with
  | nil => rfl
  | cons e rest ih =>
    simp [configOnly] at h
    cases e <;> simp_all [noSendL, configOnly, Event.isSend]

theorem configOnly_reports (tr : List Event) (h : configOnly tr = true) :
    reportsOf tr = [] := by
  induction tr with
  | nil => rfl
  | cons e rest ih =>
    simp [configOnly] at h
    cases e <;> simp_all [reportsOf, configOnly]

theorem configOnly_count_acquire (tr : List Event) (h : configOnly tr = true)
    (r : Res) : countEv tr (Event.acquire r) = 0 := by
  induction tr with
  | nil => rfl
  | cons e rest ih =>
    simp [configOnly] at h
    cases e <;> simp_all [countEv, configOnly]

theorem configOnly_count_release (tr : List Event) (h : configOnly tr = true)
    (r : Res) : countEv tr (Event.release r) = 0 := by
  induction tr with
  | nil => rfl
  | cons e rest ih =>
    simp [configOnly] at h
    cases e <;> simp_all [countEv, configOnly]

theorem configPhase_configOnly (env : Env) (ip : IpAddress) (secret : String) :
    configOnly (configPhase env ip secret).2 = true := by
  simp only [configPhase]
  repeat' split
  all_goals rfl

theorem configPhase_true_flags (env : Env) (ip : IpAddress) (secret : String)
    (h : (configPhase env ip secret).1 = true) :
    env.config_init_ok = true ∧ env.dict_cfg_ok = true ∧
    authserverOk ip secret = true ∧ env.retries_cfg_ok = true ∧
    env.timeout_cfg_ok = true ∧ env.test_config_ok = true ∧
    env.read_dict_ok = true ∧ env.read_sb_dict_ok = true := by
  simp only [configPhase] at h
  repeat' split at h
  all_goals simp_all

theorem configPhase_ok (env : Env) (ip : IpAddress) (secret : String)
    (h2 : env.config_init_ok = true) (h3 : env.dict_cfg_ok = true)
    (ha : authserverOk ip secret = true) (h4 : env.retries_cfg_ok = true)
    (h5 : env.timeout_cfg_ok = true) (h6 : env.test_config_ok = true)
    (h7 : env.read_dict_ok = true) (h8 : env.read_sb_dict_ok = true) :
    configPhase env ip secret = (true, configEvents ip secret) := by
  simp [configPhase, configEvents, h2, h3, ha, h4, h5, h6, h7, h8]

/-! ## Characterizing the attribute build -/

theorem buildAvps_happy (env : Env) (ip : IpAddress) (password mac : String)
    (hch : env.add_challenge_ok = true) (hpw : env.add_password_ok = true)
    (hmac : env.add_mac_ok = true) (hman : env.add_manufacturer_ok = true)
    (hmod : env.add_model_ok = true) (hhw : env.add_hwrev_ok = true) :
    buildAvps env ip (List.ofFn env.rand_bytes)
      (response (strBytes password) (List.ofFn env.rand_bytes)) mac =
      some (sentAvps env ip password mac) := by
  simp [buildAvps, sentAvps, hch, hpw, hmac, hman, hmod, hhw]

theorem buildAvps_some_val (env : Env) (ip : IpAddress)
    (challenge resp : List Nat) (mac : String) (avps : List Avp)
    (h : buildAvps env ip challenge resp mac = some avps) :
    avps = [Avp.mk PW_USER_NAME none (strBytes ip.expanded),
            Avp.mk PW_CHAP_CHALLENGE none challenge,
            Avp.mk PW_CHAP_PASSWORD none resp,
            Avp.mk kSbBBMac (some kVendorSoftbank) (strBytes mac),
            Avp.mk kSbBBManufacturer (some kVendorSoftbank)
              (strBytes kManufacturer),
            Avp.mk kSbBBModel (some kVendorSoftbank) (strBytes kModel),
            Avp.mk kSbBBHWRev (some kVendorSoftbank) (strBytes kHwRev)] ∧
    env.add_challenge_ok = true ∧ env.add_password_ok = true ∧
    env.add_mac_ok = true ∧ env.add_manufacturer_ok = true ∧
    env.add_model_ok = true ∧ env.add_hwrev_ok = true := by
  simp only [buildAvps] at h
  repeat' split at h
  all_goals simp_all

theorem noSendL_wrap (a : Event) (tr tl : List Event) (ha : a.isSend = false)
    (h : noSendL tr = true) (h2 : noSendL tl = true) :
    noSendL (a :: tr ++ tl) = true := by
  show noSendL ([a] ++ (tr ++ tl)) = true
  rw [noSendL_append, noSendL_append, h, h2]
  simp [noSendL, ha]

/-! ## The two master lemmas about `radius_transact` -/

/-- When every configuration and build step succeeds, the transaction
returns the `rc_aaa` result code and performs exactly `happyTrace`. -/
theorem transact_happy (env : Env) (ip : IpAddress)
    (secret password mac : String)
    (hs : setupOk env ip secret = true) (hb : buildOk env = true) :
    radius_transact env ip secret password mac =
      (env.aaa_result, happyTrace env ip secret password mac) := by
  simp only [setupOk, Bool.and_eq_true] at hs
  obtain ⟨h1, h2, h3, ha, h4, h5, h6, h7, h8⟩ := hs
  simp only [buildOk, Bool.and_eq_true] at hb
  obtain ⟨h9, hch, hpw, hmac, hman, hmod, hhw⟩ := hb
  simp only [radius_transact, transactCore]
  rw [configPhase_ok env ip secret h2 h3 ha h4 h5 h6 h7 h8]
  simp [h1, h9, buildAvps_happy env ip password mac hch hpw hmac hman hmod hhw,
    happyTrace, -List.ofFn_succ]

/-- Every run either aborts with `ERROR_RC` without sending, reporting or
leaving a resource unreleased, or is the fully successful run described by
`happyTrace`. -/
theorem transact_cases (env : Env) (ip : IpAddress)
    (secret password mac : String) :
    ((radius_transact env ip secret password mac).1 = ERROR_RC ∧
      noSendL (radius_transact env ip secret password mac).2 = true ∧
      reportsOf (radius_transact env ip secret password mac).2 = [] ∧
      balancedB (radius_transact env ip secret password mac).2 = true) ∨
    (setupOk env ip secret = true ∧ buildOk env = true ∧
      radius_transact env ip secret password mac =
        (env.aaa_result, happyTrace env ip secret password mac)) := by
  by_cases h1 : env.rc_new_ok = true
  · rcases hcp : configPhase env ip secret with ⟨ok, tr⟩
    have hco : configOnly tr = true := by
      have h := configPhase_configOnly env ip secret
      rw [hcp] at h
      exact h
    have hns : noSendL tr = true := configOnly_noSend tr hco
    have hrp : reportsOf tr = [] := configOnly_reports tr hco
    cases ok with
    | false =>
      left
      have hrt : radius_transact env ip secret password mac =
          (ERROR_RC,
            Event.acquire Res.session :: tr ++ [Event.release Res.session]) := by
        simp [radius_transact, transactCore, h1, hcp]
      rw [hrt]
      refine ⟨rfl, ?_, ?_, ?_⟩
      · exact noSendL_wrap _ _ _ rfl hns rfl
      · simp [reportsOf, reportsOf_append, hrp]
      · simp [balancedB, countEv, countEv_append,
          configOnly_count_acquire tr hco, configOnly_count_release tr hco]
    | true =>
      obtain ⟨h2, h3, ha, h4, h5, h6, h7, h8⟩ :=
        configPhase_true_flags env ip secret (by rw [hcp])
      have htr : tr = configEvents ip secret := by
        have h := configPhase_ok env ip secret h2 h3 ha h4 h5 h6 h7 h8
        rw [hcp] at h
        simpa using h
      subst htr
      by_cases h9 : env.avpair_new_ok = true
      · rcases hba : buildAvps env ip (List.ofFn env.rand_bytes)
            (response (strBytes password) (List.ofFn env.rand_bytes)) mac
          with _ | avps
        · left
          have hrt : radius_transact env ip secret password mac =
              (ERROR_RC,
                Event.acquire Res.session :: configEvents ip secret ++
                  [Event.acquire Res.sendList, Event.release Res.sendList,
                   Event.release Res.session]) := by
            simp [radius_transact, transactCore, h1, hcp, h9, hba,
              -List.ofFn_succ]
          rw [hrt]
          refine ⟨rfl, ?_, ?_, ?_⟩
          · exact noSendL_wrap _ _ _ rfl hns rfl
          · simp [reportsOf, reportsOf_append, hrp]
          · simp [balancedB, countEv, countEv_append,
              configOnly_count_acquire _ hco, configOnly_count_release _ hco]
        · right
          obtain ⟨-, hch, hpw, hmac, hman, hmod, hhw⟩ :=
            buildAvps_some_val env ip _ _ mac avps hba
          have hsOk : setupOk env ip secret = true := by
            simp [setupOk, h1, h2, h3, ha, h4, h5, h6, h7, h8]
          have hbOk : buildOk env = true := by
            simp [buildOk, h9, hch, hpw, hmac, hman, hmod, hhw]
          exact ⟨hsOk, hbOk, transact_happy env ip secret password mac hsOk hbOk⟩
      · left
        have hrt : radius_transact env ip secret password mac =
            (ERROR_RC,
              Event.acquire Res.session :: configEvents ip secret ++
                [Event.release Res.session]) := by
          simp [radius_transact, transactCore, h1, hcp, h9]
        rw [hrt]
        refine ⟨rfl, ?_, ?_, ?_⟩
        · exact noSendL_wrap _ _ _ rfl hns rfl
        · simp [reportsOf, reportsOf_append, hrp]
        · simp [balancedB, countEv, countEv_append,
            configOnly_count_acquire _ hco, configOnly_count_release _ hco]
  · left
    have hrt : radius_transact env ip secret password mac = (ERROR_RC, []) := by
      simp [radius_transact, transactCore, h1]
    rw [hrt]
    exact ⟨rfl, rfl, rfl, rfl⟩

/-! ## Facts about the successful trace -/

theorem balancedB_happyTrace (env : Env) (ip : IpAddress)
    (secret password mac : String) :
    balancedB (happyTrace env ip secret password mac) = true := by
  have hca : ∀ r, countEv (configEvents ip secret) (Event.acquire r) = 0 :=
    configOnly_count_acquire _ rfl
  have hcr : ∀ r, countEv (configEvents ip secret) (Event.release r) = 0 :=
    configOnly_count_release _ rfl
  by_cases hr : env.aaa_result = OK_RC <;>
    simp [happyTrace, hr, balancedB, countEv, countEv_append, hca, hcr,
      reportEvents, countEv_map_report_acquire, countEv_map_report_release]

theorem reportsOf_happyTrace (env : Env) (ip : IpAddress)
    (secret password mac : String) (hr : env.aaa_result = OK_RC) :
    reportsOf (happyTrace env ip secret password mac) =
      env.reply.filterMap (avpairTostr env.decode 128 128) := by
  have hcfg : reportsOf (configEvents ip secret) = [] :=
    configOnly_reports (configEvents ip secret) rfl
  simp [happyTrace, hr, reportsOf, reportsOf_append, reportEvents,
    reportsOf_map_report, hcfg]

theorem reportsOf_happyTrace_fail (env : Env) (ip : IpAddress)
    (secret password mac : String) (hr : ¬env.aaa_result = OK_RC) :
    reportsOf (happyTrace env ip secret password mac) = [] := by
  have hcfg : reportsOf (configEvents ip secret) = [] :=
    configOnly_reports (configEvents ip secret) rfl
  simp [happyTrace, hr, reportsOf, reportsOf_append, hcfg]

theorem send_mem_happyTrace (env : Env) (ip : IpAddress)
    (secret password mac : String) (code : Nat) (avps : List Avp)
    (h : Event.send code avps ∈ happyTrace env ip secret password mac) :
    code = PW_ACCESS_REQUEST ∧ avps = sentAvps env ip password mac := by
  by_cases hr : env.aaa_result = OK_RC <;>
    simp [happyTrace, configEvents, reportEvents, hr] at h <;>
    exact h

theorem avpairTostr_length (d : Nat → Option (List Char × List Char))
    (a : Nat) (n v : List Char)
    (h : avpairTostr d 128 128 a = some (n, v)) :
    n.length ≤ 127 ∧ v.length ≤ 127 := by
  simp only [avpairTostr, Option.map_eq_some'] at h
  rcases h with ⟨q, hq, hnv⟩
  injection hnv with hn hv
  subst hn
  subst hv
  constructor <;> simp [List.length_take]

/-! ## Concrete instances used by the witnesses -/

/-- A concrete subscriber address. -/
def ipW : IpAddress :=
  { bracketed := "[2001:db8::1]",
    expanded := "2001:0db8:0000:0000:0000:0000:0000:0001" }

/-- An environment in which every library call succeeds, the server
accepts, and the reply is empty. -/
def envAllOk : Env :=
  { rc_new_ok := true
    config_init_ok := true
    dict_cfg_ok := true
    retries_cfg_ok := true
    timeout_cfg_ok := true
    test_config_ok := true
    read_dict_ok := true
    read_sb_dict_ok := true
    avpair_new_ok := true
    add_challenge_ok := true
    add_password_ok := true
    add_mac_ok := true
    add_manufacturer_ok := true
    add_model_ok := true
    add_hwrev_ok := true
    rand_ok := true
    rand_bytes := fun _ => 0
    aaa_result := OK_RC
    reply := []
    decode := fun _ => none }

/-- All steps succeed but the entropy source reported failure and left the
buffer filled with stale bytes. -/
def envRandFail : Env :=
  { envAllOk with rand_ok := false, rand_bytes := fun _ => 0xAA }

/-- A failing configuration validation step. -/
def envCfgFail : Env :=
  { envAllOk with test_config_ok := false }

/-- A successful transaction whose reply holds two attributes: attribute
`0`, which the dictionary cannot decode, followed by attribute `1`, which
decodes. -/
def envC4 : Env :=
  { envAllOk with
    reply := [0, 1]
    decode := fun a => if a = 1 then some (['a'], ['b']) else none }

/-- A successful transaction whose single reply attribute decodes to a
200-character name and a 300-character value. -/
def envC10 : Env :=
  { envAllOk with
    reply := [5]
    decode := fun a =>
      if a = 5 then some (List.replicate 200 'x', List.replicate 300 'y')
      else none }

/-! ## The claims -/

/-- Claim C1: for every password and every 16-byte challenge, the CHAP
response value (the CHAP-Password AVP payload, lines 122-134) is exactly
17 bytes: byte 0 is the constant identifier 1, and bytes 1-16 are the MD5
digest of `0x01 ∥ password ∥ challenge` in that order. -/
theorem chap_response_is_17_bytes_md5 (p c : List Nat) (h : c.length = 16) :
    (response p c).length = 17 ∧ (response p c).head? = some 0x01 ∧
      (response p c).drop 1 = md5 (0x01 :: (p ++ c)) := by
  refine ⟨?_, rfl, rfl⟩
  simp [response, md5_digest_length]

theorem chap_response_is_17_bytes_md5_witness :
    (List.replicate 16 0 : List Nat).length = 16 ∧
      ((response (strBytes "pw") (List.replicate 16 0)).length = 17 ∧
        (response (strBytes "pw") (List.replicate 16 0)).head? = some 0x01 ∧
        (response (strBytes "pw") (List.replicate 16 0)).drop 1 =
          md5 (0x01 :: (strBytes "pw" ++ List.replicate 16 0))) :=
  ⟨by decide,
    chap_response_is_17_bytes_md5 (strBytes "pw") (List.replicate 16 0)
      (by decide)⟩

/-- Claim C2: any Access-Request the transaction sends carries exactly the
seven AVPs of `sentAvps`, in that order: User-Name = the expanded identity
(no vendor id), CHAP-Challenge = the 16 challenge bytes (no vendor id),
CHAP-Password = the 17-byte response (no vendor id), then under vendor id
22197 type 1 = the MAC, type 2 = the manufacturer constant, type 3 = the
model constant, type 4 = the hardware-revision constant; in particular
CHAP-Challenge precedes CHAP-Password. -/
theorem access_request_avp_sequence (env : Env) (ip : IpAddress)
    (secret password mac : String) (avps : List Avp)
    (h : Event.send PW_ACCESS_REQUEST avps ∈
      (radius_transact env ip secret password mac).2) :
    avps = sentAvps env ip password mac := by
  rcases transact_cases env ip secret password mac with ⟨-, hn, -, -⟩ | ⟨-, -, heq⟩
  · exact absurd h (noSendL_not_mem _ hn _ _)
  · rw [heq] at h
    exact (send_mem_happyTrace env ip secret password mac _ _ h).2

theorem access_request_avp_sequence_witness :
    Event.send PW_ACCESS_REQUEST (sentAvps envAllOk ipW "pass" "mac") ∈
        (radius_transact envAllOk ipW "secret" "pass" "mac").2 ∧
      sentAvps envAllOk ipW "pass" "mac" = sentAvps envAllOk ipW "pass" "mac" :=
  ⟨by decide,
    access_request_avp_sequence envAllOk ipW "secret" "pass" "mac" _ (by decide)⟩

/-- Claim C3 (code bug): line 111 never checks the return value of
`RAND_bytes`, so when the entropy source is unavailable
(`rand_ok = false`) the transaction still proceeds and sends the
Access-Request, using whatever the challenge buffer holds. -/
theorem transaction_proceeds_despite_rand_failure (env : Env)
    (ip : IpAddress) (secret password mac : String)
    (hs : setupOk env ip secret = true) (hb : buildOk env = true)
    (hrand : env.rand_ok = false) :
    Event.send PW_ACCESS_REQUEST (sentAvps env ip password mac) ∈
      (radius_transact env ip secret password mac).2 := by
  rw [transact_happy env ip secret password mac hs hb]
  simp [happyTrace]

theorem transaction_proceeds_despite_rand_failure_witness :
    (setupOk envRandFail ipW "secret" = true ∧ buildOk envRandFail = true ∧
        envRandFail.rand_ok = false) ∧
      Event.send PW_ACCESS_REQUEST (sentAvps envRandFail ipW "pass" "mac") ∈
        (radius_transact envRandFail ipW "secret" "pass" "mac").2 :=
  ⟨⟨by decide, by decide, rfl⟩,
    transaction_proceeds_despite_rand_failure envRandFail ipW "secret" "pass"
      "mac" (by decide) (by decide) rfl⟩

/-- Claim C4, counterexample: in a successful transaction whose first
reply attribute (attribute 0) fails to decode, the loop does not stop
there: the later attribute 1 is still decoded and reported, so reply-AVP
decoding does not stop at the first attribute that fails to decode. -/
theorem decode_continues_after_failure_cx :
    envC4.reply = [0, 1] ∧ envC4.decode 0 = none ∧
      (radius_transact envC4 ipW "secret" "pass" "mac").1 = OK_RC ∧
      reportsOf (radius_transact envC4 ipW "secret" "pass" "mac").2 =
        [(['a'], ['b'])] := by
  refine ⟨rfl, rfl, ?_, ?_⟩ <;> decide

/-- Claim C4 (amended): on a successful transaction the decode loop skips
each reply attribute that fails to decode and continues with the
remaining ones — the reported pairs are exactly the renderings of every
decodable reply attribute, in order — and a decode failure never changes
the returned result code, which stays the send/receive step's code. -/
theorem decode_skips_failures_result_unchanged (env : Env) (ip : IpAddress)
    (secret password mac : String)
    (hs : setupOk env ip secret = true) (hb : buildOk env = true)
    (hr : env.aaa_result = OK_RC) :
    (radius_transact env ip secret password mac).1 = OK_RC ∧
      reportsOf (radius_transact env ip secret password mac).2 =
        env.reply.filterMap (avpairTostr env.decode 128 128) := by
  rw [transact_happy env ip secret password mac hs hb]
  exact ⟨hr, reportsOf_happyTrace env ip secret password mac hr⟩

theorem decode_skips_failures_result_unchanged_witness :
    (setupOk envC4 ipW "secret" = true ∧ buildOk envC4 = true ∧
        envC4.aaa_result = OK_RC) ∧
      ((radius_transact envC4 ipW "secret" "pass" "mac").1 = OK_RC ∧
        reportsOf (radius_transact envC4 ipW "secret" "pass" "mac").2 =
          envC4.reply.filterMap (avpairTostr envC4.decode 128 128)) :=
  ⟨⟨by decide, by decide, rfl⟩,
    decode_skips_failures_result_unchanged envC4 ipW "secret" "pass" "mac"
      (by decide) (by decide) rfl⟩

/-- Claim C5: if any configuration step fails (session creation,
dictionary configuration and loading, authserver setting, retry and
timeout setting, configuration validation), the transaction returns
`ERROR_RC` and performs no network I/O: no send event is in its trace. -/
theorem config_failure_aborts_before_send (env : Env) (ip : IpAddress)
    (secret password mac : String)
    (h : setupOk env ip secret = false) :
    (radius_transact env ip secret password mac).1 = ERROR_RC ∧
      noSendL (radius_transact env ip secret password mac).2 = true := by
  rcases transact_cases env ip secret password mac with ⟨he, hn, -, -⟩ | ⟨hs, -, -⟩
  · exact ⟨he, hn⟩
  · simp [hs] at h

theorem config_failure_aborts_before_send_witness :
    setupOk envCfgFail ipW "secret" = false ∧
      ((radius_transact envCfgFail ipW "secret" "pass" "mac").1 = ERROR_RC ∧
        noSendL (radius_transact envCfgFail ipW "secret" "pass" "mac").2 =
          true) :=
  ⟨by decide,
    config_failure_aborts_before_send envCfgFail ipW "secret" "pass" "mac"
      (by decide)⟩

/-- Claim C6: a transaction invoked with an empty shared secret or a
malformed (here: empty) server address fails with the setup error code
before attempting any network I/O: no send event is in its trace. -/
theorem empty_secret_or_malformed_addr_aborts (env : Env) (ip : IpAddress)
    (secret password mac : String)
    (h : secret = "" ∨ ip.bracketed = "") :
    (radius_transact env ip secret password mac).1 = ERROR_RC ∧
      noSendL (radius_transact env ip secret password mac).2 = true := by
  rcases transact_cases env ip secret password mac with ⟨he, hn, -, -⟩ | ⟨hs, -, -⟩
  · exact ⟨he, hn⟩
  · exfalso
    simp only [setupOk, Bool.and_eq_true] at hs
    have ha := hs.2.2.2.1
    rcases h with h | h <;> simp [authserverOk, h] at ha

theorem empty_secret_or_malformed_addr_aborts_witness :
    ("" = "" ∨ ipW.bracketed = "") ∧
      ((radius_transact envAllOk ipW "" "pass" "mac").1 = ERROR_RC ∧
        noSendL (radius_transact envAllOk ipW "" "pass" "mac").2 = true) :=
  ⟨Or.inl rfl,
    empty_secret_or_malformed_addr_aborts envAllOk ipW "" "pass" "mac"
      (Or.inl rfl)⟩

/-- Claim C7: every transaction that reaches the send configured the
session with authserver = bracketed-address ++ "::" ++ secret, with
radius_retries "3" and radius_timeout "5", before the `rc_test_config`
validation and before the Access-Request send, as the explicit trace
shows. -/
theorem authserver_retries_timeout_configured (env : Env) (ip : IpAddress)
    (secret password mac : String)
    (hs : setupOk env ip secret = true) (hb : buildOk env = true) :
    (radius_transact env ip secret password mac).2 =
      Event.acquire Res.session ::
        [Event.configInit,
         Event.addConfig "dictionary" RADIUS_DICTIONARY,
         Event.addConfig "authserver" (ip.bracketed ++ "::" ++ secret),
         Event.addConfig "radius_retries" "3",
         Event.addConfig "radius_timeout" "5",
         Event.testConfig,
         Event.readDict RADIUS_DICTIONARY,
         Event.readDict "dictionary.softbank"] ++
        Event.acquire Res.sendList ::
          Event.send PW_ACCESS_REQUEST (sentAvps env ip password mac) ::
            ((if env.aaa_result = OK_RC then
                Event.acquire Res.recvList :: reportEvents env ++
                  [Event.release Res.recvList]
              else []) ++
              [Event.release Res.sendList, Event.release Res.session]) := by
  rw [transact_happy env ip secret password mac hs hb]
  simp [happyTrace, configEvents]

theorem authserver_retries_timeout_configured_witness :
    (setupOk envAllOk ipW "secret" = true ∧ buildOk envAllOk = true) ∧
      (radius_transact envAllOk ipW "secret" "pass" "mac").2 =
        Event.acquire Res.session ::
          [Event.configInit,
           Event.addConfig "dictionary" RADIUS_DICTIONARY,
           Event.addConfig "authserver" (ipW.bracketed ++ "::" ++ "secret"),
           Event.addConfig "radius_retries" "3",
           Event.addConfig "radius_timeout" "5",
           Event.testConfig,
           Event.readDict RADIUS_DICTIONARY,
           Event.readDict "dictionary.softbank"] ++
          Event.acquire Res.sendList ::
            Event.send PW_ACCESS_REQUEST (sentAvps envAllOk ipW "pass" "mac") ::
              ((if envAllOk.aaa_result = OK_RC then
                  Event.acquire Res.recvList :: reportEvents envAllOk ++
                    [Event.release Res.recvList]
                else []) ++
                [Event.release Res.sendList, Event.release Res.session]) :=
  ⟨⟨by decide, by decide⟩,
    authserver_retries_timeout_configured envAllOk ipW "secret" "pass" "mac"
      (by decide) (by decide)⟩

/-- Claim C8: the plaintext password is consumed only as input of the
MD5-based CHAP computation: the whole transaction — its result code and
every event, so in particular every AVP value placed in the outgoing
Access-Request — depends on the password only through the digest
`md5 (0x01 ∥ password ∥ challenge)`, since it equals `transactCore`
applied to that digest, and `transactCore` does not take the password. -/
theorem password_only_through_md5 (env : Env) (ip : IpAddress)
    (secret password mac : String) :
    radius_transact env ip secret password mac =
      transactCore env ip secret mac
        (0x01 :: md5 (0x01 :: (strBytes password ++ List.ofFn env.rand_bytes))) :=
  rfl

/-- Claim C9: on every exit path — early aborts on configuration or
AVP-construction failure and the non-success branch after send included —
every resource the transaction acquired (session handle, outgoing AVP
list, received-attribute list) is released before the function returns:
each resource's acquire count equals its release count in the complete
trace. -/
theorem resources_balanced_on_all_paths (env : Env) (ip : IpAddress)
    (secret password mac : String) :
    balancedB (radius_transact env ip secret password mac).2 = true := by
  rcases transact_cases env ip secret password mac with ⟨-, -, -, hbal⟩ | ⟨-, -, heq⟩
  · exact hbal
  · rw [heq]
    exact balancedB_happyTrace env ip secret password mac

/-- Claim C10: every (name, value) pair reported from a successful
transaction was rendered into two fixed 128-byte buffers, so each reported
component holds at most 127 characters (attributes that do not decode are
not reported; over-long renderings are truncated). -/
theorem reported_attr_lengths_bounded (env : Env) (ip : IpAddress)
    (secret password mac : String) (n v : List Char)
    (h : Event.report n v ∈ (radius_transact env ip secret password mac).2) :
    n.length ≤ 127 ∧ v.length ≤ 127 := by
  rcases transact_cases env ip secret password mac with ⟨-, -, hrp, -⟩ | ⟨-, -, heq⟩
  · have hmem := mem_reportsOf _ n v h
    rw [hrp] at hmem
    simp at hmem
  · rw [heq] at h
    have hmem := mem_reportsOf _ n v h
    by_cases hr : env.aaa_result = OK_RC
    · rw [reportsOf_happyTrace env ip secret password mac hr] at hmem
      rcases List.mem_filterMap.mp hmem with ⟨a, -, ha⟩
      exact avpairTostr_length env.decode a n v ha
    · rw [reportsOf_happyTrace_fail env ip secret password mac hr] at hmem
      simp at hmem

theorem reported_attr_lengths_bounded_witness :
    Event.report (List.replicate 127 'x') (List.replicate 127 'y') ∈
        (radius_transact envC10 ipW "secret" "pass" "mac").2 ∧
      ((List.replicate 127 'x' : List Char).length ≤ 127 ∧
        (List.replicate 127 'y' : List Char).length ≤ 127) :=
  ⟨by decide,
    reported_attr_lengths_bounded envC10 ipW "secret" "pass" "mac" _ _
      (by decide)⟩

end SbRadius
